import Mathlib

/-!
Verification of the DS-TWR initiator (`ds_init_main.c`, `dsInitRun` and its
helpers) against its natural-language specification.

The shallow embedding below translates the C source: compile-time constants
become `def`s, the static message buffers become `List Nat` of byte values,
the response-collection loop becomes a step function over an explicit state
record driven by a list of receive events, and the fixed-point timestamp
arithmetic is carried out on `Nat` with explicit `% 2^32` / `% 2^64` where
the C integer widths truncate.
-/

namespace DsInit

/-! ## Compile-time constants (macros of ds_init_main.c) -/

def ALL_MSG_COMMON_LEN : Nat := 10
def EX_SEQ_COUNT_IDX : Nat := 2
def FINAL_MSG_TX_1_IDX : Nat := 10
def FINAL_MSG_TX_2_IDX : Nat := 14
def FINAL_MSG_RX_1_IDX : Nat := 18
def ANCHOR_ID_IDX : Nat := 10
def FINAL_MSG_TS_LEN : Nat := 4
def ANCHORS_TOTAL_COUNT : Nat := 3
def RX_BUF_LEN : Nat := 32
def UUS_TO_DWT_TIME : Nat := 65536
def TX_ANT_DLY : Nat := 16436
def RESP_RX_TO_FINAL_TX_DLY_UUS : Nat := 3800

/-! ## Static frame templates

`tagFirstMsg` (the Poll), `anchorMsg` (expected Response header) and
`tagFinalMsg` (the Final) as byte lists; 0x57 0x41 0x56 0x45 are the
characters W A V E, 0x56 0x45 0x57 0x41 are V E W A. -/

def tagFirstMsg : List Nat :=
  [0x41, 0x88, 0, 0xCA, 0xDE, 0x57, 0x41, 0x56, 0x45, 0xE0, 0, 0]

def anchorMsg : List Nat :=
  [0x41, 0x88, 0, 0xCA, 0xDE, 0x56, 0x45, 0x57, 0x41, 0xE1,
   0, 0, 0, 0, 0, 0, 0, 0, 0, 0]

def tagFinalMsg : List Nat :=
  [0x41, 0x88, 0, 0xCA, 0xDE, 0x57, 0x41, 0x56, 0x45, 0x23] ++
    List.replicate 22 0

/-! ## Timestamp assembly (getTxTimestampU64 / getRxTimestampU64)

The C loop runs `for (i = 4; i >= 0; i--) { ts <<= 8; ts |= tsTab[i]; }`,
i.e. it folds the 5-byte array most-significant byte first. -/

def assemble (tsTab : List Nat) : Nat :=
  tsTab.reverse.foldl (fun ts b => (ts <<< 8) ||| b) 0

/-- The 5-byte little-endian decomposition of a value (the spec's
"decomposing V into 5 little-endian bytes"; the hardware registers hold
timestamps in exactly this layout). -/
def bytesLE5 (v : Nat) : List Nat :=
  [v % 256, (v >>> 8) % 256, (v >>> 16) % 256, (v >>> 24) % 256,
   (v >>> 32) % 256]

/-! ## Delay scheduler (lines 198-204 of dsInitRun)

`tagSendDelayTime = (anchorsTimestamps[ANCHORS_TOTAL_COUNT - 1]
                     + (RESP_RX_TO_FINAL_TX_DLY_UUS * UUS_TO_DWT_TIME)) >> 8;`
computed in uint64 and truncated to the uint32 `tagSendDelayTime`, and
`tagTxTimestamp2 = (((uint64)(tagSendDelayTime & 0xFFFFFFFEUL)) << 8)
                   + TX_ANT_DLY;` computed in uint64. -/

def computeTagSendDelayTime (n : Nat) (anchorsTimestamps : List Nat) : Nat :=
  ((anchorsTimestamps.getD (n - 1) 0 +
      RESP_RX_TO_FINAL_TX_DLY_UUS * UUS_TO_DWT_TIME) >>> 8) % 2 ^ 32

/-- The predicted final-TX timestamp as a function of the scheduled time and
the antenna-delay configuration constant (the source instantiates the
delay with `TX_ANT_DLY`). -/
def predictedFinalTxTsGen (tagSendDelayTime antennaDelay : Nat) : Nat :=
  (((tagSendDelayTime &&& 0xFFFFFFFE) <<< 8) + antennaDelay) % 2 ^ 64

def predictedFinalTxTs (tagSendDelayTime : Nat) : Nat :=
  predictedFinalTxTsGen tagSendDelayTime TX_ANT_DLY

/-! ## Final message field encoding (finalMsgSetTs / finalMsgSetRxTs) -/

/-- `finalMsgSetTs`: write the low `FINAL_MSG_TS_LEN` (4) bytes of `ts`
little-endian at offset `idx` of `msg` (`tsField[i] = (uint8) ts; ts >>= 8`). -/
def finalMsgSetTs (msg : List Nat) (idx : Nat) (ts : Nat) : List Nat :=
  (List.range FINAL_MSG_TS_LEN).foldl
    (fun m j => m.set (idx + j) ((ts >>> (8 * j)) % 256)) msg

/-- `finalMsgSetRxTs`: for each anchor slot `i`, write the low 4 bytes of
`anchorsTimestamps[i]` little-endian at offset `idx + 4*i`. -/
def finalMsgSetRxTs (msg : List Nat) (idx : Nat) (anchorsTimestamps : List Nat) :
    List Nat :=
  (List.range ANCHORS_TOTAL_COUNT).foldl
    (fun m i =>
      (List.range FINAL_MSG_TS_LEN).foldl
        (fun m' j => m'.set (idx + 4 * i + j)
          ((anchorsTimestamps.getD i 0 >>> (8 * j)) % 256)) m)
    msg

/-- The Final frame as `dsInitRun` builds it (lines 206-215): timestamps are
written into `tagFinalMsg` at `FINAL_MSG_TX_1_IDX` (poll TX),
`FINAL_MSG_TX_2_IDX` (predicted final TX) and `FINAL_MSG_RX_1_IDX` (anchor
RX table), then the sequence-count byte is set. -/
def buildFinalMsg (seq pollTx finalTx : Nat) (anchorsTimestamps : List Nat) :
    List Nat :=
  ((finalMsgSetRxTs
      (finalMsgSetTs (finalMsgSetTs tagFinalMsg FINAL_MSG_TX_1_IDX pollTx)
        FINAL_MSG_TX_2_IDX finalTx)
      FINAL_MSG_RX_1_IDX anchorsTimestamps).set EX_SEQ_COUNT_IDX seq)

/-- Modelled from the spec: the frame layout the specification describes
(header, then poll-TX, then the N anchor RX timestamps, then final-TX), for
comparison with `buildFinalMsg`. -/
def buildFinalMsgSpecOrder (seq pollTx finalTx : Nat)
    (anchorsTimestamps : List Nat) : List Nat :=
  ((finalMsgSetTs
      (finalMsgSetRxTs (finalMsgSetTs tagFinalMsg FINAL_MSG_TX_1_IDX pollTx)
        FINAL_MSG_TX_1_IDX.succ.succ.succ.succ anchorsTimestamps)
      (FINAL_MSG_TX_1_IDX + 4 + 4 * ANCHORS_TOTAL_COUNT) finalTx).set
    EX_SEQ_COUNT_IDX seq)

/-! ## The response-collection state machine (dsInitRun lines 135-193)

The outer `while (anchorsCount < ANCHORS_TOTAL_COUNT)` loop is driven by the
DW1000 status register: the inner busy-wait exits when at least one of
`SYS_STATUS_RXFCG`, `SYS_STATUS_ALL_RX_TO`, `SYS_STATUS_ALL_RX_ERR` is set.
We model each exit of the busy-wait as a receive event: either a good frame
(RXFCG, carrying the received bytes and the RX timestamp the chip latched)
or a timeout/error indication (ALL_RX_TO / ALL_RX_ERR with RXFCG clear).
Calls into the transceiver driver are recorded as an action trace. -/

inductive StatusFlag where
  | RXFCG
  | TXFRS
  | ALL_RX_TO
  | ALL_RX_ERR
deriving Repr, DecidableEq

inductive DwAction where
  | clearStatus (flags : List StatusFlag)
  | readRxData
  | schemaCompare
  | rxReset
  | rxEnable
deriving Repr, DecidableEq

inductive RxEvent where
  | frame (data : List Nat) (rxTs : Nat)
  | timeoutOrError
deriving Repr, DecidableEq

/-- The mutable state the loop works on. `oobWrite` records that the C code
performed the out-of-bounds store `anchorsTimestamps[anchorID - 1]` with
`anchorID = 0` (index -1): the C behaviour there is an out-of-table write,
which the embedding flags instead of corrupting unrelated state. -/
structure TagState where
  anchorsCount : Nat
  anchorsTimestamps : List Nat
  rxBuffer : List Nat
  rxCount : Nat
  tagRxTimestamp1 : Nat
  oobWrite : Bool
deriving Repr, DecidableEq

/-- One iteration of the outer loop body, given the event the inner
busy-wait exited on.  Note the branch structure of the source: the `else`
that clears `ALL_RX_TO | ALL_RX_ERR` and resets the receiver belongs to the
`memcmp` schema check inside the `RXFCG` branch; an event with only
timeout/error flags set skips the whole `if (statusReg & SYS_STATUS_RXFCG)`
body, executing no statement at all. -/
def processEvent (n : Nat) (st : TagState) (ev : RxEvent) :
    TagState × List DwAction :=
  match ev with
  | .timeoutOrError => (st, [])
  | .frame data rxTs =>
    let frameLen := data.length
    let readActs : List DwAction :=
      if frameLen ≤ RX_BUF_LEN then [.readRxData] else []
    let buf0 : List Nat :=
      if frameLen ≤ RX_BUF_LEN then
        data.take frameLen ++ st.rxBuffer.drop frameLen
      else st.rxBuffer
    let buf : List Nat := buf0.set EX_SEQ_COUNT_IDX 0
    if buf.take ALL_MSG_COMMON_LEN = anchorMsg.take ALL_MSG_COMMON_LEN then
      let st1 : TagState :=
        { st with rxBuffer := buf, rxCount := st.rxCount + 1,
                  tagRxTimestamp1 := rxTs }
      let anchorID := buf.getD ANCHOR_ID_IDX 0
      let st2 : TagState :=
        if anchorID > n then st1
        else if anchorID = 0 then
          { st1 with oobWrite := true, anchorsCount := st1.anchorsCount + 1 }
        else
          { st1 with
              anchorsTimestamps :=
                st1.anchorsTimestamps.set (anchorID - 1) rxTs,
              anchorsCount := st1.anchorsCount + 1 }
      let enableActs : List DwAction :=
        if st2.anchorsCount < n then [.rxEnable] else []
      (st2, .clearStatus [.RXFCG, .TXFRS] :: readActs ++
        [.schemaCompare] ++ enableActs)
    else
      ({ st with rxBuffer := buf },
        .clearStatus [.RXFCG, .TXFRS] :: readActs ++
          [.schemaCompare, .clearStatus [.ALL_RX_TO, .ALL_RX_ERR], .rxReset])

/-- The outer `while (anchorsCount < n)` loop over a (finite) trace of
receive events: `some st` means the loop exited (the round proceeds to
finalization) in state `st`; `none` means the trace was exhausted with the
round still collecting responses. -/
def collectLoop (n : Nat) : TagState → List RxEvent → Option TagState
  | st, [] => if n ≤ st.anchorsCount then some st else none
  | st, e :: es =>
    if n ≤ st.anchorsCount then some st
    else collectLoop n (processEvent n st e).1 es

/-- State at loop entry of one round: `anchorsTimestamps` is `memset` to
zero and `anchorsCount` reset, while `rxBuffer` and `rxCount` are statics
that persist from previous rounds. -/
def roundInitState (rxBuf0 : List Nat) (rxCount0 : Nat) : TagState :=
  { anchorsCount := 0,
    anchorsTimestamps := List.replicate ANCHORS_TOTAL_COUNT 0,
    rxBuffer := rxBuf0, rxCount := rxCount0,
    tagRxTimestamp1 := 0, oobWrite := false }

/-- A fresh-boot initial state (statics zero-initialised). -/
def initState : TagState := roundInitState (List.replicate RX_BUF_LEN 0) 0

/-! ## One full round of dsInitRun -/

structure RoundOutput where
  pollFrame : List Nat
  finalState : TagState
  tagSendDelayTime : Nat
  tagTxTimestamp2 : Nat
  finalFrame : List Nat
  seqAfter : Nat
  txCompleted : Bool
deriving Repr, DecidableEq

/-- One invocation of `dsInitRun`: build and send the Poll (carrying the
current `exchangeSeqCount`, a uint8), run the collection loop on the given
event trace, then compute the delayed-transmission time from slot
`ANCHORS_TOTAL_COUNT - 1` of the table, predict the final TX timestamp,
build the Final frame with the incremented sequence count, and record
whether the delayed transmit was accepted (`txOk`).  `pollTxTs` is the
poll TX timestamp later read back from the hardware. -/
def dsRound (seqIn : Nat) (rxBuf0 : List Nat) (rxCount0 : Nat)
    (evs : List RxEvent) (pollTxTs : Nat) (txOk : Bool) :
    Option RoundOutput :=
  (collectLoop ANCHORS_TOTAL_COUNT (roundInitState rxBuf0 rxCount0) evs).map
    (fun st =>
      { pollFrame := tagFirstMsg.set EX_SEQ_COUNT_IDX (seqIn % 256),
        finalState := st,
        tagSendDelayTime :=
          computeTagSendDelayTime ANCHORS_TOTAL_COUNT st.anchorsTimestamps,
        tagTxTimestamp2 := predictedFinalTxTs
          (computeTagSendDelayTime ANCHORS_TOTAL_COUNT st.anchorsTimestamps),
        finalFrame := buildFinalMsg ((seqIn + 1) % 256) pollTxTs
          (predictedFinalTxTs
            (computeTagSendDelayTime ANCHORS_TOTAL_COUNT st.anchorsTimestamps))
          st.anchorsTimestamps,
        seqAfter := (seqIn + 1) % 256, txCompleted := txOk })

/-- A well-formed Response frame from anchor `id`: the `anchorMsg` template
with the anchor-id byte set (the sequence-number byte is irrelevant since
the receiver zeroes it before comparison). -/
def anchorFrame (id : Nat) : List Nat := anchorMsg.set ANCHOR_ID_IDX id

/-! ## Helper lemmas -/

theorem shift_or_eq_add {b : Nat} (x : Nat) (hb : b < 256) :
    (x <<< 8) ||| b = 256 * x + b := by
  rw [Nat.shiftLeft_eq, Nat.mul_comm]
  exact (Nat.mul_add_lt_is_or hb x).symm

theorem shift_or_lt {x b k : Nat} (hx : x < 2 ^ k) (hb : b < 256) :
    (x <<< 8) ||| b < 2 ^ (k + 8) := by
  apply Nat.or_lt_two_pow
  · rw [Nat.shiftLeft_eq, pow_add]
    exact Nat.mul_lt_mul_of_lt_of_le hx (le_refl (2 ^ 8)) (by norm_num)
  · calc b < 256 := hb
      _ ≤ 2 ^ (k + 8) := by
        rw [pow_add]
        exact Nat.le_mul_of_pos_left _ (Nat.pos_pow_of_pos k (by norm_num))

theorem predictedFinalTxTsGen_eq {d : Nat} (s : Nat) (hd : d < 2 ^ 40) :
    predictedFinalTxTsGen s d = ((s &&& 0xFFFFFFFE) <<< 8) + d := by
  have hm : s &&& 0xFFFFFFFE ≤ 0xFFFFFFFE := Nat.and_le_right
  rw [predictedFinalTxTsGen, Nat.shiftLeft_eq]
  rw [Nat.mod_eq_of_lt]
  have : (s &&& 0xFFFFFFFE) * 2 ^ 8 ≤ 0xFFFFFFFE * 2 ^ 8 :=
    Nat.mul_le_mul_right _ hm
  norm_num at this ⊢
  omega

theorem length_foldl_preserve {α : Type} (step : List Nat → α → List Nat)
    (hp : ∀ m a, (step m a).length = m.length) :
    ∀ (l : List α) (m : List Nat), (l.foldl step m).length = m.length := by
  intro l
  induction l with
  | nil => intro m; rfl
  | cons a as ih =>
    intro m
    rw [List.foldl_cons, ih, hp]

theorem length_finalMsgSetTs (msg : List Nat) (idx ts : Nat) :
    (finalMsgSetTs msg idx ts).length = msg.length := by
  unfold finalMsgSetTs
  exact length_foldl_preserve _ (fun m a => List.length_set m _ _) _ msg

theorem length_finalMsgSetRxTs (msg : List Nat) (idx : Nat) (tbl : List Nat) :
    (finalMsgSetRxTs msg idx tbl).length = msg.length := by
  unfold finalMsgSetRxTs
  refine length_foldl_preserve _ (fun m a => ?_) _ msg
  exact length_foldl_preserve _ (fun m' a' => List.length_set m' _ _) _ m

theorem length_buildFinalMsg (seq p f : Nat) (tbl : List Nat) :
    (buildFinalMsg seq p f tbl).length = 32 := by
  unfold buildFinalMsg
  rw [List.length_set, length_finalMsgSetRxTs, length_finalMsgSetTs,
    length_finalMsgSetTs]
  rfl

/-- Byte-exact layout of the Final frame the code builds, for a
three-entry anchor table: header (with the sequence byte), then the poll-TX
timestamp little-endian at offsets 10-13, then the predicted final-TX
timestamp at offsets 14-17, then the three anchor RX timestamps at offsets
18-29, then the two bytes the hardware checksum overwrites. -/
theorem buildFinalMsg_layout (seq p f a1 a2 a3 : Nat) :
    buildFinalMsg seq p f [a1, a2, a3] =
      [0x41, 0x88, seq, 0xCA, 0xDE, 0x57, 0x41, 0x56, 0x45, 0x23,
       p % 256, (p >>> 8) % 256, (p >>> 16) % 256, (p >>> 24) % 256,
       f % 256, (f >>> 8) % 256, (f >>> 16) % 256, (f >>> 24) % 256,
       a1 % 256, (a1 >>> 8) % 256, (a1 >>> 16) % 256, (a1 >>> 24) % 256,
       a2 % 256, (a2 >>> 8) % 256, (a2 >>> 16) % 256, (a2 >>> 24) % 256,
       a3 % 256, (a3 >>> 8) % 256, (a3 >>> 16) % 256, (a3 >>> 24) % 256,
       0, 0] := by
  simp [buildFinalMsg, finalMsgSetTs, finalMsgSetRxTs, tagFinalMsg,
    FINAL_MSG_TS_LEN, ANCHORS_TOTAL_COUNT, FINAL_MSG_TX_1_IDX,
    FINAL_MSG_TX_2_IDX, FINAL_MSG_RX_1_IDX, EX_SEQ_COUNT_IDX,
    List.range_succ]

theorem collectLoop_some_count (n : Nat) :
    ∀ (evs : List RxEvent) (st st' : TagState),
      collectLoop n st evs = some st' → n ≤ st'.anchorsCount := by
  intro evs
  induction evs with
  | nil =>
    intro st st' h
    rw [collectLoop] at h
    by_cases hc : n ≤ st.anchorsCount
    · rw [if_pos hc] at h
      cases h
      exact hc
    · rw [if_neg hc] at h
      cases h
  | cons e es ih =>
    intro st st' h
    rw [collectLoop] at h
    by_cases hc : n ≤ st.anchorsCount
    · rw [if_pos hc] at h
      cases h
      exact hc
    · rw [if_neg hc] at h
      exact ih _ _ h

theorem processEvent_table_length (n : Nat) (st : TagState) (ev : RxEvent) :
    ((processEvent n st ev).1).anchorsTimestamps.length =
      st.anchorsTimestamps.length := by
  cases ev with
  | timeoutOrError => rfl
  | frame data rxTs =>
    simp only [processEvent]
    split_ifs <;> simp [List.length_set]

theorem collectLoop_table_length (n : Nat) :
    ∀ (evs : List RxEvent) (st st' : TagState),
      collectLoop n st evs = some st' →
      st'.anchorsTimestamps.length = st.anchorsTimestamps.length := by
  intro evs
  induction evs with
  | nil =>
    intro st st' h
    rw [collectLoop] at h
    by_cases hc : n ≤ st.anchorsCount
    · rw [if_pos hc] at h
      cases h
      rfl
    · rw [if_neg hc] at h
      cases h
  | cons e es ih =>
    intro st st' h
    rw [collectLoop] at h
    by_cases hc : n ≤ st.anchorsCount
    · rw [if_pos hc] at h
      cases h
      rfl
    · rw [if_neg hc] at h
      rw [ih _ _ h, processEvent_table_length]

/-! ## Concrete scenarios used by the claim theorems -/

def zero32 : List Nat := List.replicate RX_BUF_LEN 0

def defaultRoundOutput : RoundOutput :=
  { pollFrame := [], finalState := initState, tagSendDelayTime := 0,
    tagTxTimestamp2 := 0, finalFrame := [], seqAfter := 0,
    txCompleted := false }

/-- Responses from anchors 1, 2, 3 in id order. -/
def evsOrdered : List RxEvent :=
  [.frame (anchorFrame 1) 11, .frame (anchorFrame 2) 22,
   .frame (anchorFrame 3) 33]

def stAfterOrdered : TagState := (collectLoop 3 initState evsOrdered).getD initState

/-- Responses out of id order: anchor 3 answers first, anchor 2 last. -/
def c4Events : List RxEvent :=
  [.frame (anchorFrame 3) 1000000, .frame (anchorFrame 1) 2000000,
   .frame (anchorFrame 2) 3000000]

def c4Out : RoundOutput :=
  (dsRound 0 zero32 0 c4Events 42 true).getD defaultRoundOutput

/-- A round whose last-slot (anchor 3) RX timestamp is the valid 40-bit
value 1099262590720 = 2^40 - 256 - 3800*65536. -/
def c5Events : List RxEvent :=
  [.frame (anchorFrame 1) 111, .frame (anchorFrame 2) 222,
   .frame (anchorFrame 3) 1099262590720]

/-- A state whose receive buffer holds a stale (previously matching)
response frame from anchor 2. -/
def c6StaleState : TagState :=
  (processEvent 3 initState (.frame (anchorFrame 2) 555)).1

/-- A frame one byte longer than the 32-byte receive buffer. -/
def longFrame : List Nat := List.replicate 33 7

/-- The spec's worked example: the last anchor's response is received at
device time 1000000. -/
def c8Events : List RxEvent :=
  [.frame (anchorFrame 1) 111, .frame (anchorFrame 2) 222,
   .frame (anchorFrame 3) 1000000]

def c8Out : RoundOutput :=
  (dsRound 0 zero32 0 c8Events 42 true).getD defaultRoundOutput

def c10Out : RoundOutput :=
  (dsRound 255 zero32 0 evsOrdered 42 true).getD defaultRoundOutput

/-! ## The claims -/

/-- C1: the claim says `recordResponse` rejects anchor ids 0 and N+1 (all
ids outside [1,N]) without storing a timestamp and without incrementing the
response count.  The code's guard is only `anchorID > ANCHORS_TOTAL_COUNT`:
id 4 is indeed rejected with nothing stored and listening continuing, and
ids 1..3 are accepted, but a schema-matching response carrying anchor id 0
is NOT rejected — it increments `anchorsCount` and performs the
out-of-bounds store `anchorsTimestamps[-1]` (the `oobWrite` flag). -/
theorem c1_anchor_id_zero_accepted :
    (processEvent 3 initState (.frame (anchorFrame 0) 555)).1.anchorsCount = 1
    ∧ (processEvent 3 initState (.frame (anchorFrame 0) 555)).1.oobWrite = true
    ∧ (processEvent 3 initState (.frame (anchorFrame 4) 555)).1.anchorsCount = 0
    ∧ (processEvent 3 initState
        (.frame (anchorFrame 4) 555)).1.anchorsTimestamps = [0, 0, 0]
    ∧ DwAction.rxEnable ∈ (processEvent 3 initState (.frame (anchorFrame 4) 555)).2
    ∧ (processEvent 3 initState (.frame (anchorFrame 1) 555)).1.anchorsCount = 1
    ∧ (processEvent 3 initState (.frame (anchorFrame 2) 555)).1.anchorsCount = 1
    ∧ (processEvent 3 initState (.frame (anchorFrame 3) 555)).1.anchorsCount = 1 := by
  refine ⟨by decide, by decide, by decide, by decide, by decide, by decide,
    by decide, by decide⟩

/-- C2 counterexample: the claim puts the N anchor RX timestamps at payload
offsets 14..25 and the final-TX timestamp after them, but the frame the
code builds carries the final-TX timestamp at bytes 14..17 and the anchor
RX timestamps at bytes 18..29: at byte 14 the built frame holds 0x22 (the
low byte of finalTx = 0x22222222), not 0x33 (the low byte of the first
anchor RX timestamp 0x33333333) which the claimed layout would put there. -/
theorem c2_counterexample :
    (buildFinalMsg 7 0x11111111 0x22222222
        [0x33333333, 0x44444444, 0x55555555]).getD FINAL_MSG_TX_2_IDX 0 = 0x22
    ∧ (buildFinalMsgSpecOrder 7 0x11111111 0x22222222
        [0x33333333, 0x44444444, 0x55555555]).getD FINAL_MSG_TX_2_IDX 0 = 0x33
    ∧ buildFinalMsg 7 0x11111111 0x22222222 [0x33333333, 0x44444444, 0x55555555]
        ≠ buildFinalMsgSpecOrder 7 0x11111111 0x22222222
            [0x33333333, 0x44444444, 0x55555555] := by
  refine ⟨by decide, by decide, by decide⟩

/-- C2 amended: every built Final frame is the 10-byte common header, then
the 32-bit little-endian poll-TX timestamp (offsets 10-13), then the 32-bit
little-endian final-TX timestamp (offsets 14-17), then the N = 3 anchor RX
timestamps packed contiguously at 4-byte strides in anchor-index order
(offsets 18-29), for a total payload of 4 + 4 + N*4 = 20 bytes before the
2-byte hardware checksum (total frame 32 bytes). -/
theorem c2_amended_final_layout (seq p f a1 a2 a3 : Nat) :
    buildFinalMsg seq p f [a1, a2, a3] =
      [0x41, 0x88, seq, 0xCA, 0xDE, 0x57, 0x41, 0x56, 0x45, 0x23,
       p % 256, (p >>> 8) % 256, (p >>> 16) % 256, (p >>> 24) % 256,
       f % 256, (f >>> 8) % 256, (f >>> 16) % 256, (f >>> 24) % 256,
       a1 % 256, (a1 >>> 8) % 256, (a1 >>> 16) % 256, (a1 >>> 24) % 256,
       a2 % 256, (a2 >>> 8) % 256, (a2 >>> 16) % 256, (a2 >>> 24) % 256,
       a3 % 256, (a3 >>> 8) % 256, (a3 >>> 16) % 256, (a3 >>> 24) % 256,
       0, 0]
    ∧ (buildFinalMsg seq p f [a1, a2, a3]).length =
        ALL_MSG_COMMON_LEN + (4 + 3 * 4 + 4) + 2 :=
  ⟨buildFinalMsg_layout seq p f a1 a2 a3, length_buildFinalMsg seq p f _⟩

/-- C3: the claim says a receive timeout or receive error is recovered by
clearing the corresponding status flags and resetting the receiver.  In the
code the `else` branch doing exactly that is attached to the schema
(`memcmp`) check inside the good-frame branch, so an event carrying only
timeout/error status executes no driver call at all: the state is returned
unchanged and the action trace is empty — the flags stay set and the
receiver is never reset. -/
theorem c3_timeout_error_unhandled (n : Nat) (st : TagState) :
    processEvent n st .timeoutOrError = (st, []) := rfl

/-- C7: `assemble` is the exact inverse of the 5-byte little-endian
decomposition: folding the 5 bytes of any 40-bit value V most-significant
byte first recovers exactly V. -/
theorem c7_assemble_inverse (v : Nat) (hv : v < 2 ^ 40) :
    assemble (bytesLE5 v) = v := by
  simp only [assemble, bytesLE5, List.reverse_cons, List.reverse_nil,
    List.nil_append, List.cons_append, List.foldl_cons, List.foldl_nil]
  rw [shift_or_eq_add _ (Nat.mod_lt _ (by norm_num)),
    shift_or_eq_add _ (Nat.mod_lt _ (by norm_num)),
    shift_or_eq_add _ (Nat.mod_lt _ (by norm_num)),
    shift_or_eq_add _ (Nat.mod_lt _ (by norm_num)),
    shift_or_eq_add _ (Nat.mod_lt _ (by norm_num))]
  simp only [Nat.shiftRight_eq_div_pow]
  norm_num at hv ⊢
  omega

/-- Witness for C7 at the concrete 40-bit value 987654321098. -/
theorem c7_assemble_inverse_witness :
    assemble (bytesLE5 987654321098) = 987654321098 :=
  c7_assemble_inverse 987654321098 (by norm_num)

/-- C4 counterexample: the code computes the scheduled final transmission
time from `anchorsTimestamps[ANCHORS_TOTAL_COUNT - 1]`, the slot of anchor
id N, not from the most recently received (last-accepted) response.  With
anchor 3 answering first (RX timestamp 1000000) and anchor 2 answering
last (RX timestamp 3000000), the code's scheduled time is
(1000000 + 3800*65536) >> 8 = 976706, while the claimed formula over the
last-accepted response timestamp gives (3000000 + 3800*65536) >> 8 =
984518. -/
theorem c4_counterexample :
    ((collectLoop 3 initState c4Events).map
        (fun st => computeTagSendDelayTime 3 st.anchorsTimestamps))
      = some 976706
    ∧ ((collectLoop 3 initState c4Events).map
        (fun st => ((st.tagRxTimestamp1 +
            RESP_RX_TO_FINAL_TX_DLY_UUS * UUS_TO_DWT_TIME) >>> 8) % 2 ^ 32))
      = some 984518
    ∧ (976706 : Nat) ≠ 984518 := by
  refine ⟨by decide, by decide, by decide⟩

/-- C4 amended: the scheduled final transmission time is computed by
converting the configured turnaround delay from microseconds to device time
units (multiplying by 65536), adding it to the timestamp stored in table
slot N-1 — the response of the anchor with id N, which is the most recently
received response only when anchor N answers last — and right-shifting the
sum by 8 bits (truncated to 32 bits by the uint32 assignment). -/
theorem c4_amended_scheduler_uses_slot_n (seqIn : Nat) (rxBuf0 : List Nat)
    (rxCount0 : Nat) (evs : List RxEvent) (pollTxTs : Nat) (txOk : Bool)
    (out : RoundOutput)
    (h : dsRound seqIn rxBuf0 rxCount0 evs pollTxTs txOk = some out) :
    out.tagSendDelayTime =
      ((out.finalState.anchorsTimestamps.getD (ANCHORS_TOTAL_COUNT - 1) 0 +
        RESP_RX_TO_FINAL_TX_DLY_UUS * UUS_TO_DWT_TIME) >>> 8) % 2 ^ 32 := by
  simp only [dsRound, Option.map_eq_some'] at h
  obtain ⟨st, hc, rfl⟩ := h
  rfl

/-- Witness for the amended C4 on a concrete completed round. -/
theorem c4_amended_scheduler_uses_slot_n_witness :
    c4Out.tagSendDelayTime =
      ((c4Out.finalState.anchorsTimestamps.getD (ANCHORS_TOTAL_COUNT - 1) 0 +
        RESP_RX_TO_FINAL_TX_DLY_UUS * UUS_TO_DWT_TIME) >>> 8) % 2 ^ 32 :=
  c4_amended_scheduler_uses_slot_n 0 zero32 0 c4Events 42 true c4Out (by decide)

/-- C5 counterexample: the claim asserts bits 40-63 of the predicted
final-TX timestamp are zero for every reachable input.  Starting from the
valid 40-bit RX timestamp 1099262590720 (< 2^40) for the last anchor, the
round computes `tagSendDelayTime = 0xFFFFFFFF` and the predicted final-TX
timestamp ((0xFFFFFFFF & 0xFFFFFFFE) << 8) + 16436 = 1099511643700, which
has bit 40 set (2^40 = 1099511627776). -/
theorem c5_counterexample :
    (1099262590720 : Nat) < 2 ^ 40
    ∧ ((dsRound 0 zero32 0 c5Events 42 true).map RoundOutput.tagSendDelayTime)
        = some 0xFFFFFFFF
    ∧ ((dsRound 0 zero32 0 c5Events 42 true).map RoundOutput.tagTxTimestamp2)
        = some 1099511643700
    ∧ ¬ (1099511643700 : Nat) < 2 ^ 40 := by
  refine ⟨by norm_num, by decide, by decide, by norm_num⟩

/-- C5 amended: every timestamp assembled from 5 hardware bytes has bits
40-63 zero, and the predicted final-TX timestamp
((scheduledTime & 0xFFFFFFFE) << 8) + TX_ANT_DLY has bits 40-63 zero
whenever the 32-bit scheduled time is at most 0xFFFFFFBF (for larger
scheduled times — which are reachable — bit 40 is set, as the
counterexample shows). -/
theorem c5_amended_40bit_invariant (b0 b1 b2 b3 b4 : Nat)
    (h0 : b0 < 256) (h1 : b1 < 256) (h2 : b2 < 256) (h3 : b3 < 256)
    (h4 : b4 < 256) (s : Nat) (hs : s ≤ 0xFFFFFFBF) :
    assemble [b0, b1, b2, b3, b4] < 2 ^ 40
    ∧ predictedFinalTxTs s < 2 ^ 40 := by
  constructor
  · show (((((((((0 : Nat) <<< 8) ||| b4) <<< 8) ||| b3) <<< 8) ||| b2)
        <<< 8 ||| b1) <<< 8) ||| b0 < 2 ^ 40
    exact shift_or_lt (shift_or_lt (shift_or_lt (shift_or_lt (shift_or_lt
      (show (0 : Nat) < 2 ^ 0 by norm_num) h4) h3) h2) h1) h0
  · rw [predictedFinalTxTs,
      predictedFinalTxTsGen_eq _ (by norm_num [TX_ANT_DLY] : TX_ANT_DLY < 2 ^ 40),
      Nat.shiftLeft_eq]
    have hm : s &&& 0xFFFFFFFE ≤ s := Nat.and_le_left
    have hb : (s &&& 0xFFFFFFFE) * 2 ^ 8 ≤ 0xFFFFFFBF * 2 ^ 8 :=
      Nat.mul_le_mul_right _ (le_trans hm hs)
    norm_num [TX_ANT_DLY] at hb ⊢
    omega

/-- Witness for the amended C5 at concrete bytes and scheduled time. -/
theorem c5_amended_40bit_invariant_witness :
    assemble [255, 255, 255, 255, 255] < 2 ^ 40
    ∧ predictedFinalTxTs 0xFFFFFFBF < 2 ^ 40 :=
  c5_amended_40bit_invariant 255 255 255 255 255 (by norm_num) (by norm_num)
    (by norm_num) (by norm_num) (by norm_num) 0xFFFFFFBF (by norm_num)

/-- C6 counterexample: the claim says every frame shorter than the minimum
Response length is rejected before any field extraction.  After a valid
response from anchor 2 leaves its bytes in the static receive buffer, a
zero-length received frame is schema-compared against that stale buffer
(the trace shows the buffer read and the schema comparison) and is even
accepted: the response count is incremented. -/
theorem c6_counterexample :
    (processEvent 3 c6StaleState (.frame [] 777)).2 =
      [.clearStatus [.RXFCG, .TXFRS], .readRxData, .schemaCompare, .rxEnable]
    ∧ (processEvent 3 c6StaleState (.frame [] 777)).1.anchorsCount =
        c6StaleState.anchorsCount + 1 := by
  refine ⟨by decide, by decide⟩

/-- C6 amended: there is no minimum-length check.  The only length
validation skips copying frames longer than the 32-byte buffer into it
(the buffer keeps its previous contents, except for the zeroed
sequence-number byte); the 10-byte schema comparison is performed for every
well-received frame regardless of its length, so short frames are rejected
only when the (possibly stale) buffer contents fail that comparison. -/
theorem c6_amended_no_min_length_check (n : Nat) (st : TagState)
    (data : List Nat) (rxTs : Nat) :
    DwAction.schemaCompare ∈ (processEvent n st (.frame data rxTs)).2
    ∧ (DwAction.readRxData ∈ (processEvent n st (.frame data rxTs)).2 ↔
        data.length ≤ RX_BUF_LEN)
    ∧ (RX_BUF_LEN < data.length →
        (processEvent n st (.frame data rxTs)).1.rxBuffer =
          st.rxBuffer.set EX_SEQ_COUNT_IDX 0) := by
  simp only [processEvent]
  split_ifs <;> simp_all

/-- Witness for the amended C6 on a 33-byte frame. -/
theorem c6_amended_no_min_length_check_witness :
    (processEvent 3 initState (.frame longFrame 9)).1.rxBuffer =
      initState.rxBuffer.set EX_SEQ_COUNT_IDX 0 :=
  (c6_amended_no_min_length_check 3 initState longFrame 9).2.2 (by decide)

/-- C8: for every scheduled time and every antenna-delay configuration
value below 2^40, the predicted final-TX timestamp is the scheduled time
with its low bit masked to zero, left-shifted by 8, plus the antenna delay;
every completed round satisfies this with the configured TX_ANT_DLY; and on
the spec's worked example (last anchor RX timestamp 1000000, turnaround
delay 3800 uus) the round's scheduled time is (1000000 + 3800*65536) >> 8
and its predicted final-TX timestamp is
(((1000000 + 3800*65536) >> 8) & 0xFFFFFFFE) << 8) + 16436. -/
theorem c8_predicted_final_ts :
    (∀ s d : Nat, d < 2 ^ 40 →
        predictedFinalTxTsGen s d = ((s &&& 0xFFFFFFFE) <<< 8) + d)
    ∧ (∀ (seqIn : Nat) (rxBuf0 : List Nat) (rxCount0 : Nat)
        (evs : List RxEvent) (pollTxTs : Nat) (txOk : Bool)
        (out : RoundOutput),
        dsRound seqIn rxBuf0 rxCount0 evs pollTxTs txOk = some out →
        out.tagTxTimestamp2 =
          ((out.tagSendDelayTime &&& 0xFFFFFFFE) <<< 8) + TX_ANT_DLY)
    ∧ ((dsRound 0 zero32 0 c8Events 42 true).map RoundOutput.tagSendDelayTime
        = some ((1000000 + 3800 * 65536) >>> 8))
    ∧ ((dsRound 0 zero32 0 c8Events 42 true).map RoundOutput.tagTxTimestamp2
        = some (((((1000000 + 3800 * 65536) >>> 8) &&& 0xFFFFFFFE) <<< 8)
            + 16436)) := by
  refine ⟨fun s d hd => predictedFinalTxTsGen_eq s hd, ?_, by decide, by decide⟩
  intro seqIn rxBuf0 rxCount0 evs pollTxTs txOk out h
  simp only [dsRound, Option.map_eq_some'] at h
  obtain ⟨st, hc, rfl⟩ := h
  exact predictedFinalTxTsGen_eq _ (by norm_num [TX_ANT_DLY])

/-- Witness for C8: the universal parts applied on a concrete completed
round and at the worked-example scheduled time. -/
theorem c8_predicted_final_ts_witness :
    predictedFinalTxTsGen 976706 16436 = ((976706 &&& 0xFFFFFFFE) <<< 8) + 16436
    ∧ c8Out.tagTxTimestamp2 =
        ((c8Out.tagSendDelayTime &&& 0xFFFFFFFE) <<< 8) + TX_ANT_DLY :=
  ⟨c8_predicted_final_ts.1 976706 16436 (by norm_num),
   c8_predicted_final_ts.2.1 0 zero32 0 c8Events 42 true c8Out (by decide)⟩

/-- C9: the response-collection loop can only exit into finalization with
at least N recorded responses (for every configured anchor count and every
event trace), and while fewer than N responses are recorded a
timeout/error event leaves the round collecting exactly as before, so
after N-1 accepted responses a timeout never lets the round finalize
before the Nth accepted response. -/
theorem c9_finalizing_requires_all_responses :
    (∀ (n : Nat) (st st' : TagState) (evs : List RxEvent),
        collectLoop n st evs = some st' → n ≤ st'.anchorsCount)
    ∧ (∀ (n : Nat) (st : TagState) (evs : List RxEvent),
        st.anchorsCount < n →
        collectLoop n st (.timeoutOrError :: evs) = collectLoop n st evs) := by
  constructor
  · intro n st st' evs h
    exact collectLoop_some_count n evs st st' h
  · intro n st evs h
    rw [collectLoop, if_neg (by omega)]
    rfl

/-- Witness for C9: three accepted responses let the loop exit with count
3, and a leading timeout/error event does not change the loop's outcome. -/
theorem c9_finalizing_requires_all_responses_witness :
    3 ≤ stAfterOrdered.anchorsCount
    ∧ collectLoop 3 initState (.timeoutOrError :: evsOrdered) =
        collectLoop 3 initState evsOrdered :=
  ⟨c9_finalizing_requires_all_responses.1 3 initState stAfterOrdered
      evsOrdered (by decide),
   c9_finalizing_requires_all_responses.2 3 initState evsOrdered (by decide)⟩

/-- C10: within one round the Final frame's sequence byte is one greater
(mod 256) than the Poll frame's; the counter is advanced before the
delayed-transmit request, so a round whose final transmission is rejected
advances it exactly like a successful one; and the next round's Poll
carries the advanced value. -/
theorem c10_sequence_advance (seqIn : Nat) (rxBuf0 : List Nat)
    (rxCount0 : Nat) (evs : List RxEvent) (pollTxTs : Nat) (txOk : Bool)
    (out : RoundOutput)
    (h : dsRound seqIn rxBuf0 rxCount0 evs pollTxTs txOk = some out) :
    out.finalFrame.getD EX_SEQ_COUNT_IDX 0 =
      (out.pollFrame.getD EX_SEQ_COUNT_IDX 0 + 1) % 256
    ∧ out.seqAfter = (seqIn + 1) % 256
    ∧ dsRound seqIn rxBuf0 rxCount0 evs pollTxTs (!txOk) =
        some { out with txCompleted := !txOk }
    ∧ (∀ (rxBuf1 : List Nat) (rxCount1 : Nat) (evs1 : List RxEvent)
        (pollTxTs1 : Nat) (txOk1 : Bool) (out1 : RoundOutput),
        dsRound out.seqAfter rxBuf1 rxCount1 evs1 pollTxTs1 txOk1 = some out1 →
        out1.pollFrame.getD EX_SEQ_COUNT_IDX 0 = out.seqAfter) := by
  simp only [dsRound, Option.map_eq_some'] at h
  obtain ⟨st, hc, rfl⟩ := h
  have hlen : st.anchorsTimestamps.length = 3 := by
    have h3 := collectLoop_table_length ANCHORS_TOTAL_COUNT evs _ st hc
    simpa [roundInitState] using h3
  obtain ⟨t0, t1, t2, htbl⟩ := List.length_eq_three.mp hlen
  refine ⟨?_, rfl, ?_, ?_⟩
  · simp only [htbl, buildFinalMsg_layout]
    simp [tagFirstMsg, EX_SEQ_COUNT_IDX]
  · simp only [dsRound, Option.map_eq_some']
    exact ⟨st, hc, rfl⟩
  · intro rxBuf1 rxCount1 evs1 pollTxTs1 txOk1 out1 h1
    simp only [dsRound, Option.map_eq_some'] at h1
    obtain ⟨st1, hc1, rfl⟩ := h1
    simp [tagFirstMsg, EX_SEQ_COUNT_IDX]

/-- Witness for C10 on a concrete round starting at sequence count 255
(exhibiting the wrap to 0). -/
theorem c10_sequence_advance_witness :
    c10Out.finalFrame.getD EX_SEQ_COUNT_IDX 0 =
      (c10Out.pollFrame.getD EX_SEQ_COUNT_IDX 0 + 1) % 256
    ∧ c10Out.seqAfter = (255 + 1) % 256 :=
  ⟨(c10_sequence_advance 255 zero32 0 evsOrdered 42 true c10Out (by decide)).1,
   (c10_sequence_advance 255 zero32 0 evsOrdered 42 true c10Out (by decide)).2.1⟩

end DsInit

